import Mathlib

/-!
Shallow embedding of the word-timestamp synchronization learning subsystem of
the audio-transcription application: the synchronization estimator
(`SyncAiService`), the pattern aggregator (`LearningAlgorithmService`) and the
`learning_data` upsert of `SupabaseService`, together with proofs of the
specified properties.

Modelling conventions: JavaScript numbers are rationals (`ℚ`); `Math.exp` is
kept abstract as a function parameter `mexp` (the concrete runs below only
evaluate it at `0`, where `Math.exp` returns exactly `1`); `Date.now()` is an
explicit `agora : ℚ` argument threaded through each call; the remote
`learning_data` table is a list of rows; asynchronous queueing is modelled as
the synchronous execution of the queued operation.
-/

/-!
JavaScript string primitives, implemented over the character list of the
string so that they compute by kernel reduction.
-/

namespace Js

/-- JavaScript `String.prototype.trim`: strip whitespace from both ends. -/
def trim (s : String) : String :=
  String.mk (((s.data.dropWhile Char.isWhitespace).reverse.dropWhile Char.isWhitespace).reverse)

/-- JavaScript `String.prototype.toLowerCase` (ASCII case folding). -/
def toLower (s : String) : String :=
  String.mk (s.data.map Char.toLower)

/-- The regex test `/c$/`: the string ends with the character `c`. -/
def endsWith (s : String) (c : Char) : Bool :=
  s.data.getLast? == some c

/-- The regex test `/[...]/`: some character of the string satisfies `p`. -/
def anyChar (s : String) (p : Char → Bool) : Bool :=
  s.data.any p

end Js

/-- A JavaScript number as it occurs in the timestamp-correction pipeline:
either a finite value (an exact rational) or one of the IEEE 754 non-finite
values `NaN`, `+Infinity`, `-Infinity`, which arise from division by zero and
then propagate through arithmetic and `Math.max`. -/
inductive JsNum where
  | nan
  | inf
  | ninf
  | fin (val : ℚ)
  deriving Repr, DecidableEq

/-- IEEE negation. -/
def jsNeg : JsNum → JsNum
  | .nan => .nan
  | .inf => .ninf
  | .ninf => .inf
  | .fin q => .fin (-q)

/-- IEEE addition: `NaN` absorbs, opposite infinities give `NaN`, an infinity
absorbs finite values. -/
def jsAdd : JsNum → JsNum → JsNum
  | .nan, _ => .nan
  | _, .nan => .nan
  | .inf, .ninf => .nan
  | .ninf, .inf => .nan
  | .inf, _ => .inf
  | _, .inf => .inf
  | .ninf, _ => .ninf
  | _, .ninf => .ninf
  | .fin a, .fin b => .fin (a + b)

/-- IEEE subtraction (`a - b = a + (-b)`). -/
def jsSub (a b : JsNum) : JsNum := jsAdd a (jsNeg b)

/-- IEEE multiplication: `NaN` absorbs, `±Infinity · 0 = NaN`, otherwise the
sign rules. -/
def jsMul : JsNum → JsNum → JsNum
  | .nan, _ => .nan
  | _, .nan => .nan
  | .inf, .inf => .inf
  | .inf, .ninf => .ninf
  | .ninf, .inf => .ninf
  | .ninf, .ninf => .inf
  | .inf, .fin q => if q = 0 then .nan else if 0 < q then .inf else .ninf
  | .fin q, .inf => if q = 0 then .nan else if 0 < q then .inf else .ninf
  | .ninf, .fin q => if q = 0 then .nan else if 0 < q then .ninf else .inf
  | .fin q, .ninf => if q = 0 then .nan else if 0 < q then .ninf else .inf
  | .fin a, .fin b => .fin (a * b)

/-- JavaScript division of two finite values: the normal quotient when the
divisor is nonzero, otherwise `0 / 0 = NaN` and `±x / 0 = ±Infinity` (the
zero divisors produced in this pipeline are sums of `+0` terms, hence `+0`). -/
def jsDivQ (a b : ℚ) : JsNum :=
  if b = 0 then (if a = 0 then .nan else if 0 < a then .inf else .ninf)
  else .fin (a / b)

/-- JavaScript `Math.max`: `NaN` if either argument is `NaN`, otherwise the
larger value with `-Infinity < finite < +Infinity`. -/
def jsMax : JsNum → JsNum → JsNum
  | .nan, _ => .nan
  | _, .nan => .nan
  | .inf, _ => .inf
  | _, .inf => .inf
  | .ninf, b => b
  | a, .ninf => a
  | .fin a, .fin b => .fin (max a b)

namespace SyncAi

/-- A transcribed word with its start and end time in seconds
(`WordTimestamp` in `types.ts`). -/
structure WordTimestamp where
  word : String
  startTime : ℚ
  endTime : ℚ
  deriving Repr, DecidableEq

/-- The global synchronization pattern (`SyncPattern` in the sync service). -/
structure SyncPattern where
  averageDelay : ℚ
  confidence : ℚ
  sampleCount : ℕ
  lastUpdated : ℚ
  deriving Repr, DecidableEq

/-- One user interaction sample (`userInteractions` entries). -/
structure Interaction where
  expectedTime : ℚ
  actualTime : ℚ
  timestamp : ℚ
  deriving Repr, DecidableEq

/-- The punctuation compensation table (`punctuationOffsets`). -/
structure PunctuationOffsets where
  period : ℚ
  comma : ℚ
  semicolon : ℚ
  exclamation : ℚ
  question : ℚ
  quote : ℚ
  dash : ℚ
  deriving Repr, DecidableEq

/-- The complete mutable state of `SyncAiService`.  `LEARNING_RATE` and
`CONFIDENCE_THRESHOLD` are declared as constants in the source but mutated at
runtime through object casts, so they are state fields here. -/
structure SyncState where
  syncPattern : SyncPattern
  userInteractions : List Interaction
  audioLatency : ℚ
  systemDelay : ℚ
  punctuationOffsets : PunctuationOffsets
  LEARNING_RATE : ℚ
  CONFIDENCE_THRESHOLD : ℚ
  lastCalibration : Option ℚ
  deriving Repr, DecidableEq

/-- Default punctuation offsets from the field initializer of the service. -/
def defaultPunctuationOffsets : PunctuationOffsets :=
  { period := 200, comma := 150, semicolon := 150, exclamation := 200,
    question := 200, quote := 100, dash := 100 }

/-- Field initializers of `SyncAiService` at construction time `agora`. -/
def initialSyncState (agora : ℚ) : SyncState :=
  { syncPattern := { averageDelay := 0, confidence := 0, sampleCount := 0, lastUpdated := agora }
    userInteractions := []
    audioLatency := 100
    systemDelay := 50
    punctuationOffsets := defaultPunctuationOffsets
    LEARNING_RATE := 0.1
    CONFIDENCE_THRESHOLD := 0.7
    lastCalibration := none }

/-- `MAX_SAMPLES` constant of the service. -/
def MAX_SAMPLES : ℕ := 50

/-- Linear interpolation `lerp` of the service. -/
def lerp (a b t : ℚ) : ℚ := a + (b - a) * t

/-- Raw offsets `actualTime - expectedTime` of a buffer of interactions. -/
def atrasosDe (interacoes : List Interaction) : List ℚ :=
  interacoes.map fun i => i.actualTime - i.expectedTime

/-- `calcularPesosTemporais`: exponentially decaying recency weights. -/
def calcularPesosTemporais (mexp : ℚ → ℚ) (agora : ℚ)
    (interacoes : List Interaction) : List ℚ :=
  interacoes.map fun interacao => mexp (-(agora - interacao.timestamp) / 30000)

/-- `detectarTendencia`: slope of the simple linear regression of the offsets
against their indices. -/
def detectarTendencia (atrasos : List ℚ) : ℚ :=
  if atrasos.length < 3 then 0 else
  let n : ℚ := atrasos.length
  let x : List ℚ := (List.range atrasos.length).map fun (i : ℕ) => (i : ℚ)
  let somaX := x.sum
  let somaY := atrasos.sum
  let somaXY := ((x.zip atrasos).map fun p => p.1 * p.2).sum
  let somaX2 := (x.map fun xi => xi * xi).sum
  (n * somaXY - somaX * somaY) / (n * somaX2 - somaX * somaX)

/-- `analisarPeriodicidade`: maximal absolute autocorrelation over lags
`1 ≤ lag < min (length/2) 10` (computed by the source but never used). -/
def analisarPeriodicidade (atrasos : List ℚ) : ℚ :=
  if atrasos.length < 5 then 0 else
  let media := atrasos.sum / (atrasos.length : ℚ)
  let centralizados := atrasos.map fun a => a - media
  let lags : List ℕ := ((List.range 9).map fun l => l + 1).filter
    fun lag => if (lag : ℚ) < min ((atrasos.length : ℚ) / 2) 10 then true else false
  lags.foldl
    (fun maxCorrelacao lag =>
      let correlacao :=
        ((centralizados.zip (centralizados.drop lag)).map fun p => p.1 * p.2).sum /
          ((atrasos.length - lag : ℕ) : ℚ)
      max maxCorrelacao |correlacao|)
    0

/-- `detectarOutliers`: the IQR rule, flagging offsets strictly outside
`[q1 - 1.5·iqr, q3 + 1.5·iqr]`. -/
def detectarOutliers (atrasos : List ℚ) : List Bool :=
  if atrasos.length < 4 then atrasos.map fun _ => false else
  let sorted := List.insertionSort (fun a b : ℚ => a ≤ b) atrasos
  let q1 := sorted.getD (atrasos.length / 4) 0
  let q3 := sorted.getD (atrasos.length * 3 / 4) 0
  let iqr := q3 - q1
  let lowerBound := q1 - 1.5 * iqr
  let upperBound := q3 + 1.5 * iqr
  atrasos.map fun atraso => if atraso < lowerBound ∨ upperBound < atraso then true else false

/-- `calcularEstabilidade`: one minus the mean absolute consecutive
difference scaled by 500, clamped at zero. -/
def calcularEstabilidade (atrasos : List ℚ) : ℚ :=
  if atrasos.length < 2 then 0 else
  let diferencas := (atrasos.zip atrasos.tail).map fun p => |p.2 - p.1|
  let mediaVariacao := diferencas.sum / (diferencas.length : ℚ)
  max 0 (1 - mediaVariacao / 500)

/-- `calcularConsistencia`: stability damped by the absolute trend. -/
def calcularConsistencia (atrasos : List ℚ) (tendencia : ℚ) : ℚ :=
  if atrasos.length < 3 then 0 else
  max 0 (calcularEstabilidade atrasos * (1 - min 1 (|tendencia| / 100)))

/-- `calcularVariancia`: population variance. -/
def calcularVariancia (valores : List ℚ) : ℚ :=
  let media := valores.sum / (valores.length : ℚ)
  (valores.map fun valor => (valor - media) ^ 2).sum / (valores.length : ℚ)

/-- Offsets that the outlier flags keep (`atrasos.filter((_, i) => !outliers[i])`). -/
def filtrarPorOutliers (atrasos : List ℚ) (outliers : List Bool) : List ℚ :=
  ((atrasos.zip outliers).filter fun p => !p.2).map fun p => p.1

/-- The latency `calibrarSistema` leaves in place: unchanged when fewer than 3
offsets survive the outlier filter, otherwise `audioLatency` blended toward
the mean of the filtered offsets with factor `min 0.5 confidence`.  Note that
this update applies no clamp. -/
def latenciaCalibrada (s : SyncState) : ℚ :=
  let atrasos := atrasosDe s.userInteractions
  let outliers := detectarOutliers atrasos
  let atrasosFiltrados := filtrarPorOutliers atrasos outliers
  if atrasosFiltrados.length < 3 then s.audioLatency else
  let novaLatenciaBase := atrasosFiltrados.sum / (atrasosFiltrados.length : ℚ)
  let fatorCalibracao := min 0.5 s.syncPattern.confidence
  lerp s.audioLatency novaLatenciaBase fatorCalibracao

/-- `calibrarSistema`: the calibration touches only `audioLatency`. -/
def calibrarSistema (s : SyncState) : SyncState :=
  { s with audioLatency := latenciaCalibrada s }

/-- `executarAutoCalibração`: run the calibration when more than 30 s have
passed since the last one and at least 5 samples are buffered. -/
def executarAutoCalibracao (s : SyncState) (agora : ℚ) : SyncState :=
  let tempoDesde := agora - (s.lastCalibration.getD 0)
  if 30000 < tempoDesde ∧ 5 ≤ s.userInteractions.length then
    { calibrarSistema s with lastCalibration := some agora }
  else s

/-- The clamped latency value computed by `ajustarLatenciaAdaptativa` before
it hands control to the auto-calibration: main nudge when the mean offset of
the last 10 samples exceeds 30 ms, predictive nudge when the trend exceeds 5,
then clamp to `[-500, 1000]`. -/
def latenciaAjustadaLimitada (s : SyncState) : ℚ :=
  let ultimas := s.userInteractions.drop (s.userInteractions.length - 10)
  let atrasos := atrasosDe ultimas
  let atrasoMedio := atrasos.sum / (atrasos.length : ℚ)
  let tendenciaAtraso := detectarTendencia atrasos
  let estabilidade := calcularEstabilidade atrasos
  let fatorAjuste := min 0.3 (s.syncPattern.confidence * estabilidade)
  let l1 := if 30 < |atrasoMedio| then s.audioLatency + atrasoMedio * fatorAjuste
    else s.audioLatency
  let l2 := if 5 < |tendenciaAtraso| then l1 + tendenciaAtraso * 10 * fatorAjuste
    else l1
  max (-500) (min 1000 l2)

/-- `ajustarLatenciaAdaptativa`: early return below 2 samples, otherwise the
clamped adjustment followed by the auto-calibration check. -/
def ajustarLatenciaAdaptativa (s : SyncState) (agora : ℚ) : SyncState :=
  if s.userInteractions.length < 2 then s
  else executarAutoCalibracao { s with audioLatency := latenciaAjustadaLimitada s } agora

/-- The confidence computed by one analysis pass over a buffer of offsets:
variance of the outlier-filtered offsets, stability and trend-damped
consistency of the raw offsets, combined 0.4/0.3/0.3 and clamped to `[0,1]`. -/
def confiancaCalculada (atrasos : List ℚ) : ℚ :=
  let outliers := detectarOutliers atrasos
  let atrasosFiltrados := filtrarPorOutliers atrasos outliers
  let variancia := calcularVariancia atrasosFiltrados
  let estabilidade := calcularEstabilidade atrasos
  let consistencia := calcularConsistencia atrasos (detectarTendencia atrasos)
  max 0 (min 1 ((1 - variancia / 1000) * 0.4 + estabilidade * 0.3 + consistencia * 0.3))

/-- `analisarPadroes`: the full analysis pass run after each registration. -/
def analisarPadroes (mexp : ℚ → ℚ) (s : SyncState) (agora : ℚ) : SyncState :=
  let interacoes := s.userInteractions
  if interacoes.length < 3 then s else
  let atrasos := atrasosDe interacoes
  let pesosTemporais := calcularPesosTemporais mexp agora interacoes
  let atrasoMedioPonderado :=
    ((atrasos.zip pesosTemporais).map fun p => p.1 * p.2).sum / pesosTemporais.sum
  let _periodicidade := analisarPeriodicidade atrasos
  let confianca := confiancaCalculada atrasos
  let taxaAprendizado := s.LEARNING_RATE * (0.5 + confianca * 0.5)
  let s1 := { s with syncPattern :=
    { averageDelay := lerp s.syncPattern.averageDelay atrasoMedioPonderado taxaAprendizado
      confidence := lerp s.syncPattern.confidence confianca s.LEARNING_RATE
      sampleCount := interacoes.length
      lastUpdated := agora } }
  ajustarLatenciaAdaptativa s1 agora

/-- `registrarInteracaoUsuario`: append the sample, evict the oldest when the
buffer exceeds `MAX_SAMPLES`, then re-run the analysis. -/
def registrarInteracaoUsuario (mexp : ℚ → ℚ) (s : SyncState)
    (tempoEsperado tempoReal agora : ℚ) : SyncState :=
  let l1 := s.userInteractions ++ [⟨tempoEsperado, tempoReal, agora⟩]
  let l2 := if MAX_SAMPLES < l1.length then l1.tail else l1
  analisarPadroes mexp { s with userInteractions := l2 } agora

/-- A corrected word as the correction pipeline returns it: the computed
timestamps are JavaScript numbers and may be `NaN` on the advanced path. -/
structure WordTimestampJs where
  word : String
  startTime : JsNum
  endTime : JsNum
  deriving Repr, DecidableEq

/-- `aplicarCorrecaoBasica`: shift every word by `audioLatency`, flooring the
start at 0 and the end at the original start.  Subtraction and `Math.max` of
finite inputs are finite, so the computation happens in `ℚ` and the results
are embedded as finite JavaScript numbers. -/
def aplicarCorrecaoBasica (s : SyncState) (transcricao : List WordTimestamp) :
    List WordTimestampJs :=
  let compensacao := s.audioLatency
  transcricao.map fun palavra =>
    { word := palavra.word
      startTime := JsNum.fin (max 0 (palavra.startTime - compensacao))
      endTime := JsNum.fin (max palavra.startTime (palavra.endTime - compensacao)) }

/-- `calcularTendenciaLocal`: deviation of the mean inter-word interval from
the expected 500, scaled by 1000. -/
def calcularTendenciaLocal (transcricao : List WordTimestamp) : ℚ :=
  if transcricao.length < 3 then 0 else
  let intervalos := (transcricao.zip transcricao.tail).map
    fun p => p.2.startTime - p.1.startTime
  let mediaIntervalo := intervalos.sum / (intervalos.length : ℚ)
  (mediaIntervalo - 500) / 1000

/-- `calcularFatorPosicao`: correction strength decays by 30% along the
transcript. -/
def calcularFatorPosicao (indice total : ℕ) : ℚ :=
  1 - ((indice : ℚ) / (total : ℚ)) * 0.3

/-- The mean duration of the window of up to 3 words on each side of `index`
(`duracaoMedia` in `calcularCorrecaoPreditiva`).  For every call site
`index < transcricao.length`, so the window is nonempty and this `ℚ`
division agrees with the JavaScript one. -/
def janelaDuracaoMedia (index : ℕ) (transcricao : List WordTimestamp) : ℚ :=
  let inicio := index - 3
  let fim := min transcricao.length (index + 3 + 1)
  let contexto := (transcricao.drop inicio).take (fim - inicio)
  (contexto.map fun p => p.endTime - p.startTime).sum / (contexto.length : ℚ)

/-- `calcularCorrecaoPreditiva`: compare the word's duration to the mean
duration of a window of up to 3 words on each side.  The division by
`duracaoMedia` is a genuine JavaScript division: when the window's mean
duration is zero it produces `NaN` (zero numerator) or `±Infinity`, which
then propagate through the rest of the advanced correction. -/
def calcularCorrecaoPreditiva (palavra : WordTimestamp) (index : ℕ)
    (transcricao : List WordTimestamp) : JsNum :=
  let duracaoMedia := janelaDuracaoMedia index transcricao
  let duracaoAtual := palavra.endTime - palavra.startTime
  jsMul (jsDivQ (duracaoAtual - duracaoMedia) duracaoMedia) (JsNum.fin 100)

/-- `aplicarSuavizacaoTemporal`: smooth against the gaps to the immediate
neighbours, zero at both ends of the transcript. -/
def aplicarSuavizacaoTemporal (palavra : WordTimestamp) (index : ℕ)
    (transcricao : List WordTimestamp) : ℚ × ℚ :=
  if index = 0 ∨ index = transcricao.length - 1 then (0, 0) else
  let anterior := transcricao.getD (index - 1) palavra
  let posterior := transcricao.getD (index + 1) palavra
  let gapAnterior := palavra.startTime - anterior.endTime
  let gapPosterior := posterior.startTime - palavra.endTime
  (if gapAnterior < 50 then -gapAnterior * 0.5 else 0,
   if gapPosterior < 50 then gapPosterior * 0.5 else 0)

/-- `aplicarCorrecaoAvancada`: the advanced per-word correction, combining the
base compensation, the predictive correction, the local trend and the
temporal smoothing, then clamping start at 0 and end at the new start.  Only
the predictive correction can be non-finite, so every other component is
computed in `ℚ` and combined with it through the IEEE operations; the clamps
are `Math.max` and therefore propagate `NaN`. -/
def aplicarCorrecaoAvancada (s : SyncState) (transcricao : List WordTimestamp) :
    List WordTimestampJs :=
  let compensacaoBase := s.audioLatency + s.syncPattern.averageDelay
  let tendencia := calcularTendenciaLocal transcricao
  transcricao.enum.map fun par =>
    let index := par.1
    let palavra := par.2
    let fatorPosicao := calcularFatorPosicao index transcricao.length
    let correcaoPreditiva := calcularCorrecaoPreditiva palavra index transcricao
    let suavizacao := aplicarSuavizacaoTemporal palavra index transcricao
    let posicaoRelativa := (index : ℚ) / (transcricao.length : ℚ)
    let compensacaoAdaptativa :=
      jsAdd (jsAdd (JsNum.fin (compensacaoBase * fatorPosicao))
          (jsMul correcaoPreditiva (JsNum.fin 0.3)))
        (JsNum.fin (tendencia * posicaoRelativa * 0.2))
    let novoStartTime := jsMax (JsNum.fin 0)
      (jsAdd (jsSub (JsNum.fin palavra.startTime) compensacaoAdaptativa)
        (JsNum.fin suavizacao.1))
    let novoEndTime := jsMax novoStartTime
      (jsAdd (jsSub (JsNum.fin palavra.endTime) compensacaoAdaptativa)
        (JsNum.fin suavizacao.2))
    { word := palavra.word, startTime := novoStartTime, endTime := novoEndTime }

/-- `corrigirTimestamps`: basic correction below the confidence threshold,
advanced correction otherwise. -/
def corrigirTimestamps (s : SyncState) (transcricao : List WordTimestamp)
    (_tempoAtualAudio : ℚ) : List WordTimestampJs :=
  if s.syncPattern.confidence < s.CONFIDENCE_THRESHOLD then
    aplicarCorrecaoBasica s transcricao
  else
    aplicarCorrecaoAvancada s transcricao

/-- The quote characters of the regex used by the source (double quote and
apostrophe, written by code point to keep the text plain). -/
def aspas : List Char := [Char.ofNat 34, Char.ofNat 39]

/-- The character class of `isPunctuationWord`'s regex. -/
def caracteresPontuacao : List Char :=
  ['.', '!', '?', ',', ':', ';', Char.ofNat 34, Char.ofNat 39, '-']

/-- `isPunctuationWord`: the word contains some punctuation character. -/
def isPunctuationWord (palavra : String) : Bool :=
  Js.anyChar palavra fun c => caracteresPontuacao.contains c

/-- `calcularCompensacaoPontuacao`: sentence-final marks and commas are
matched at the end of the word, quotes and dashes anywhere in it. -/
def calcularCompensacaoPontuacao (po : PunctuationOffsets) (palavra : String) : ℚ :=
  if Js.endsWith palavra '.' then po.period
  else if Js.endsWith palavra '!' then po.exclamation
  else if Js.endsWith palavra '?' then po.question
  else if Js.endsWith palavra ',' then po.comma
  else if Js.endsWith palavra ';' then po.semicolon
  else if Js.anyChar palavra (fun c => aspas.contains c) then po.quote
  else if Js.anyChar palavra (fun c => c == '-') then po.dash
  else 0

/-- `calcularCompensacaoTradicional`: average delay when confidence exceeds
0.5, plus the punctuation compensation when a word with punctuation is given. -/
def calcularCompensacaoTradicional (s : SyncState) (_tempoAtual : ℚ)
    (palavra : Option String) : ℚ :=
  let compensacao := if 0.5 < s.syncPattern.confidence then s.syncPattern.averageDelay else 0
  match palavra with
  | some w =>
      if isPunctuationWord w then compensacao + calcularCompensacaoPontuacao s.punctuationOffsets w
      else compensacao
  | none => compensacao

/-- `aplicarCorrecaoEmergencia`: conservative immediate correction clamped to
`[-300, 800]`. -/
def aplicarCorrecaoEmergencia (s : SyncState) (novoAtraso : ℚ) : SyncState :=
  let correcaoEmergencia := novoAtraso * 0.3
  { s with audioLatency := max (-300) (min 800 (s.audioLatency + correcaoEmergencia)) }

/-- `resetarPadroes`: reset the learned pattern, the interaction buffer and
the audio latency; nothing else is touched. -/
def resetarPadroes (s : SyncState) (agora : ℚ) : SyncState :=
  { s with
    syncPattern := { averageDelay := 0, confidence := 0, sampleCount := 0, lastUpdated := agora }
    userInteractions := []
    audioLatency := 100 }

/-- Fold a list of `(tempoEsperado, tempoReal, agora)` events through
`registrarInteracaoUsuario`. -/
def execRegistros (mexp : ℚ → ℚ) (s : SyncState) (eventos : List (ℚ × ℚ × ℚ)) : SyncState :=
  eventos.foldl (fun st e => registrarInteracaoUsuario mexp st e.1 e.2.1 e.2.2) s

/-- Stand-in for `Math.exp` in runs whose samples all carry age zero:
`Math.exp 0 = 1` exactly. -/
def umExp : ℚ → ℚ := fun _ => 1

/-- Run `n` registrations of the same sample (expected 0, actual `c`) at the
same clock time `t`, starting from the freshly constructed service. -/
def corridaConstante (mexp : ℚ → ℚ) (c t : ℚ) : ℕ → SyncState
  | 0 => initialSyncState t
  | n + 1 => registrarInteracaoUsuario mexp (corridaConstante mexp c t n) 0 c t

/-- Nine interactions with offset 50 ms and one with offset 5000 ms, all at
clock time 0. -/
def amostrasForaDaCurva : List Interaction :=
  [⟨0, 50, 0⟩, ⟨0, 50, 0⟩, ⟨0, 50, 0⟩, ⟨0, 50, 0⟩, ⟨0, 50, 0⟩,
   ⟨0, 50, 0⟩, ⟨0, 50, 0⟩, ⟨0, 50, 0⟩, ⟨0, 50, 0⟩, ⟨0, 5000, 0⟩]

/-- A fresh estimator whose buffer holds the ten samples above. -/
def estadoForaDaCurva : SyncState :=
  { initialSyncState 0 with userInteractions := amostrasForaDaCurva }

/-- Five registrations with offset 5000 ms at clock time 40000: on the fifth
one the auto-calibration fires (more than 30 s since construction, 5 samples
buffered) and blends the latency toward 5000 without clamping. -/
def corridaCalibracao : SyncState :=
  execRegistros umExp (initialSyncState 0)
    [(0, 5000, 40000), (0, 5000, 40000), (0, 5000, 40000), (0, 5000, 40000), (0, 5000, 40000)]

end SyncAi

namespace Learning

/-- JavaScript falsy-or on an optional number (`v || d`). -/
def jsOrQ (v : Option ℚ) (d : ℚ) : ℚ :=
  match v with
  | some x => if x = 0 then d else x
  | none => d

/-- JavaScript falsy-or on an optional string (`v || d`). -/
def jsOrS (v : Option String) (d : String) : String :=
  match v with
  | some x => if x = "" then d else x
  | none => d

/-- A per-word learned pattern (`PadraoAprendizado` in
`learningAlgorithmService.ts`). -/
structure PadraoAprendizado where
  palavra : String
  compensacaoMedia : ℚ
  frequenciaUso : ℕ
  contextoComum : List String
  velocidadeReproducaoMedia : ℚ
  precisaoHistorica : ℚ
  deriving Repr, DecidableEq

/-- A historical record as fed to `analisarRegistro` (a `word_timestamps`
row; fields the function reads, all possibly absent). -/
structure RegistroHistorico where
  word : String
  start_time : Option ℚ
  context : Option String
  playback_rate : Option ℚ
  deriving Repr, DecidableEq

/-- `pesoHistoricoRecente` from the service configuration. -/
def pesoHistoricoRecente : ℚ := 0.7

/-- The in-memory pattern map, modelled as an association list keyed by the
word text. -/
abbrev PadraoMap := List (String × PadraoAprendizado)

/-- `analisarRegistro`: create a fresh pattern (with `precisaoHistorica := 0`)
on first sight of a word, otherwise blend the existing pattern with recency
weight 0.7, bump the frequency and cap the context list at 5 entries.  The
fire-and-forget remote save has no effect on the map. -/
def analisarRegistro (padroes : PadraoMap) (registro : RegistroHistorico) : PadraoMap :=
  let palavra := registro.word
  let compensacao := jsOrQ registro.start_time 0
  let contexto := jsOrS registro.context ""
  let velocidade := jsOrQ registro.playback_rate 1
  match padroes.find? (fun p => p.1 == palavra) with
  | none =>
      padroes ++ [(palavra,
        { palavra := palavra
          compensacaoMedia := compensacao
          frequenciaUso := 1
          contextoComum := [contexto]
          velocidadeReproducaoMedia := velocidade
          precisaoHistorica := 0 })]
  | some par =>
      let padrao := par.2
      let peso := pesoHistoricoRecente
      let contextos :=
        if padrao.contextoComum.contains contexto then padrao.contextoComum
        else
          let l := padrao.contextoComum ++ [contexto]
          if 5 < l.length then l.drop (l.length - 5) else l
      let novo := { padrao with
        compensacaoMedia := padrao.compensacaoMedia * (1 - peso) + compensacao * peso
        frequenciaUso := padrao.frequenciaUso + 1
        velocidadeReproducaoMedia :=
          padrao.velocidadeReproducaoMedia * (1 - peso) + velocidade * peso
        contextoComum := contextos }
      padroes.map fun p => if p.1 == palavra then (palavra, novo) else p

/-- `otimizarPadroes`: drop every pattern with `frequenciaUso < 2` or
`precisaoHistorica < 0.3` (the vector-database hook afterwards only logs). -/
def otimizarPadroes (padroes : PadraoMap) : PadraoMap :=
  padroes.filter fun p =>
    !(decide (p.2.frequenciaUso < 2) || decide (p.2.precisaoHistorica < 0.3))

end Learning

namespace Supabase

/-- A JavaScript number argument as passed to the upsert, distinguishing the
invalid values its validation checks for. -/
inductive JsNumber where
  | nan
  | jsNull
  | undef
  | num (val : ℚ)
  deriving Repr, DecidableEq

/-- A row of the `learning_data` table.  `supabase-schema.sql` defines no
`sample_count` column, so that field is carried as an `Option` that every
write leaves at `none`: reading it back yields `undefined` in the source. -/
structure LearningRow where
  word : String
  expected_time : ℚ
  actual_time : ℚ
  user_accuracy : ℚ
  context : String
  sample_count : Option ℚ
  deriving Repr, DecidableEq

/-- The validation fallback: `null`, `undefined` and `NaN` compensations are
replaced by the 100 ms default. -/
def sanitizarCompensacao (c : JsNumber) : ℚ :=
  match c with
  | .num v => v
  | _ => 100

/-- `salvarDadosAprendizadoComEmbeddings` on a connected client: reject blank
words, sanitize the compensation, then select-by-lowercased-word and update
the single existing row or insert a fresh one.  `existingData.sample_count`
is `undefined` (no such column), so `novoTotal` is `(undefined || 0) + 1 = 1`
and the `sample_count > 0` guard of the running-mean branch is `false`.
Embedding generation does not affect the modelled columns and is omitted. -/
def salvarDadosAprendizadoComEmbeddings (db : List LearningRow) (palavra : String)
    (compensacao : JsNumber) (contexto : String) (precisao : Option ℚ) :
    Bool × List LearningRow :=
  if (Js.trim palavra).length = 0 then (false, db) else
  let comp := sanitizarCompensacao compensacao
  let key := Js.toLower palavra
  match db.find? (fun r => r.word == key) with
  | some existingData =>
      let novoTotal := existingData.sample_count.getD 0 + 1
      let novaMedia :=
        if (match existingData.sample_count with
            | some v => decide (0 < v)
            | none => false) then
          (existingData.actual_time * existingData.sample_count.getD 0 + comp) / novoTotal
        else comp
      let novaPrecisao :=
        match precisao with
        | some p => if p = 0 then min 0.95 (novoTotal * 0.05) else p
        | none => min 0.95 (novoTotal * 0.05)
      (true, db.map fun r =>
        if r.word == key then
          { r with
            expected_time := existingData.expected_time
            actual_time := novaMedia
            user_accuracy := novaPrecisao
            context := contexto }
        else r)
  | none =>
      let acc :=
        match precisao with
        | some p => if p = 0 then 0.1 else p
        | none => (0.1 : ℚ)
      (true, db ++ [{ word := key, expected_time := 0, actual_time := comp,
                      user_accuracy := acc, context := contexto, sample_count := none }])

/-- The table state after upserting compensations 100 ms and then 200 ms for
the same word into an empty `learning_data` table. -/
def dbAposDoisUpserts : List LearningRow :=
  (salvarDadosAprendizadoComEmbeddings
    (salvarDadosAprendizadoComEmbeddings [] "teste" (.num 100) "contexto" none).2
    "teste" (.num 200) "contexto" none).2

end Supabase


/-! ## Auxiliary lemmas -/

section Auxiliares

open SyncAi Learning Supabase

theorem js_length_eq_zero_iff (s : String) : s.length = 0 ↔ s = "" := by
  cases s with
  | mk l =>
    constructor
    · intro h
      have hl : l = [] := by
        have : l.length = 0 := h
        exact List.length_eq_zero.mp this
      rw [hl]
    · intro h
      have : l = "".data := congrArg String.data h
      rw [this]
      rfl

theorem sum_zip_mul_replicate_right (xs : List ℚ) (c : ℚ) :
    ((xs.zip (List.replicate xs.length c)).map fun p => p.1 * p.2).sum = xs.sum * c := by
  induction xs with
  | nil => simp
  | cons a l ih => simp [List.replicate_succ, ih, add_mul]

theorem zip_replicate_replicate {α β : Type} (a : α) (b : β) (m n : ℕ) :
    (List.replicate m a).zip (List.replicate n b) = List.replicate (min m n) (a, b) := by
  induction m generalizing n with
  | zero => simp
  | succ i ih =>
    cases n with
    | zero => simp
    | succ j => simp [List.replicate_succ, Nat.succ_min_succ, ih j]

theorem getD_replicate_of_lt {k i : ℕ} (c d : ℚ) (h : i < k) :
    (List.replicate k c).getD i d = c := by
  induction k generalizing i with
  | zero => omega
  | succ m ih =>
    cases i with
    | zero => rfl
    | succ j => simpa [List.replicate_succ] using ih (by omega)

theorem detectarTendencia_replicate (k : ℕ) (c : ℚ) :
    detectarTendencia (List.replicate k c) = 0 := by
  rw [detectarTendencia.eq_def]
  simp only [List.length_replicate]
  by_cases hk : k < 3
  · rw [if_pos hk]
  · rw [if_neg hk]
    rw [List.sum_replicate, nsmul_eq_mul]
    have h2 := sum_zip_mul_replicate_right ((List.range k).map fun (i : ℕ) => (i : ℚ)) c
    rw [List.length_map, List.length_range] at h2
    rw [h2]
    generalize ((List.range k).map fun (i : ℕ) => (i : ℚ)).sum = S
    rw [show (k : ℚ) * (S * c) - S * ((k : ℚ) * c) = 0 by ring, zero_div]

theorem orderedInsert_replicate (k : ℕ) (c : ℚ) :
    List.orderedInsert (fun a b : ℚ => a ≤ b) c (List.replicate k c) =
      List.replicate (k + 1) c := by
  cases k with
  | zero => rfl
  | succ m => simp [List.replicate_succ, List.orderedInsert]

theorem insertionSort_replicate (k : ℕ) (c : ℚ) :
    List.insertionSort (fun a b : ℚ => a ≤ b) (List.replicate k c) =
      List.replicate k c := by
  induction k with
  | zero => rfl
  | succ m ih =>
    rw [List.replicate_succ, List.insertionSort, ih, orderedInsert_replicate,
      List.replicate_succ]

theorem detectarOutliers_replicate (k : ℕ) (c : ℚ) :
    detectarOutliers (List.replicate k c) = List.replicate k false := by
  rw [detectarOutliers.eq_def]
  simp only [List.length_replicate]
  by_cases hk : k < 4
  · rw [if_pos hk, List.map_const', List.length_replicate]
  · rw [if_neg hk]
    rw [insertionSort_replicate]
    rw [getD_replicate_of_lt c 0 (Nat.div_lt_self (by omega) (by omega))]
    rw [getD_replicate_of_lt c 0 (by
      rw [Nat.div_lt_iff_lt_mul (by norm_num : 0 < 4)]
      omega)]
    rw [List.map_replicate]
    congr 1
    rw [if_neg (by norm_num)]

theorem filtrar_replicate_false (xs : List ℚ) :
    filtrarPorOutliers xs (List.replicate xs.length false) = xs := by
  induction xs with
  | nil => rfl
  | cons a l ih =>
    simp only [List.length_cons, List.replicate_succ, filtrarPorOutliers] at ih ⊢
    simp [ih]

theorem variancia_replicate (k : ℕ) (c : ℚ) :
    calcularVariancia (List.replicate k c) = 0 := by
  cases k with
  | zero => simp [calcularVariancia]
  | succ m =>
    have hk : ((m + 1 : ℕ) : ℚ) ≠ 0 := by positivity
    rw [calcularVariancia.eq_def]
    rw [List.sum_replicate, nsmul_eq_mul]
    simp only [List.length_replicate]
    rw [mul_div_cancel_left₀ c hk, List.map_replicate]
    rw [sub_self, zero_pow (by norm_num), List.sum_replicate, smul_zero, zero_div]

theorem estabilidade_replicate (k : ℕ) (c : ℚ) (hk : 2 ≤ k) :
    calcularEstabilidade (List.replicate k c) = 1 := by
  rw [calcularEstabilidade.eq_def]
  simp only [List.length_replicate]
  rw [if_neg (by omega)]
  rw [List.tail_replicate, zip_replicate_replicate]
  have hmin : min k (k - 1) = k - 1 := by omega
  rw [hmin, List.map_replicate]
  rw [sub_self, abs_zero, List.sum_replicate, smul_zero, zero_div]
  norm_num

theorem consistencia_replicate (k : ℕ) (c : ℚ) (hk : 3 ≤ k) :
    calcularConsistencia (List.replicate k c) 0 = 1 := by
  rw [calcularConsistencia.eq_def]
  simp only [List.length_replicate]
  rw [if_neg (by omega)]
  rw [estabilidade_replicate k c (by omega)]
  norm_num

theorem confianca_replicate (k : ℕ) (c : ℚ) (hk : 3 ≤ k) :
    confiancaCalculada (List.replicate k c) = 1 := by
  rw [confiancaCalculada.eq_def]
  rw [detectarOutliers_replicate]
  have hflt : filtrarPorOutliers (List.replicate k c) (List.replicate k false) =
      List.replicate k c := by
    have h := filtrar_replicate_false (List.replicate k c)
    rwa [List.length_replicate] at h
  simp only [hflt, variancia_replicate, estabilidade_replicate k c (by omega),
    detectarTendencia_replicate, consistencia_replicate k c hk]
  norm_num

theorem executarAutoCalibracao_frame (s : SyncState) (agora : ℚ) :
    (executarAutoCalibracao s agora).syncPattern = s.syncPattern ∧
    (executarAutoCalibracao s agora).userInteractions = s.userInteractions ∧
    (executarAutoCalibracao s agora).LEARNING_RATE = s.LEARNING_RATE := by
  rw [executarAutoCalibracao.eq_def]
  simp only []
  split <;> exact ⟨rfl, rfl, rfl⟩

theorem ajustarLatenciaAdaptativa_frame (s : SyncState) (agora : ℚ) :
    (ajustarLatenciaAdaptativa s agora).syncPattern = s.syncPattern ∧
    (ajustarLatenciaAdaptativa s agora).userInteractions = s.userInteractions ∧
    (ajustarLatenciaAdaptativa s agora).LEARNING_RATE = s.LEARNING_RATE := by
  rw [ajustarLatenciaAdaptativa.eq_def]
  split
  · exact ⟨rfl, rfl, rfl⟩
  · have h := executarAutoCalibracao_frame
      { s with audioLatency := latenciaAjustadaLimitada s } agora
    exact ⟨h.1, h.2.1, h.2.2⟩

theorem analisarPadroes_frame (mexp : ℚ → ℚ) (s : SyncState) (agora : ℚ) :
    (analisarPadroes mexp s agora).userInteractions = s.userInteractions ∧
    (analisarPadroes mexp s agora).LEARNING_RATE = s.LEARNING_RATE := by
  rw [analisarPadroes.eq_def]
  simp only []
  split
  · exact ⟨rfl, rfl⟩
  · refine ⟨?_, ?_⟩
    · exact (ajustarLatenciaAdaptativa_frame _ agora).2.1
    · exact (ajustarLatenciaAdaptativa_frame _ agora).2.2

theorem analisarPadroes_skip (mexp : ℚ → ℚ) (s : SyncState) (agora : ℚ)
    (h3 : s.userInteractions.length < 3) :
    analisarPadroes mexp s agora = s := by
  rw [analisarPadroes.eq_def]
  simp only []
  rw [if_pos h3]

theorem analisarPadroes_confidence (mexp : ℚ → ℚ) (s : SyncState) (agora : ℚ)
    (h3 : ¬ s.userInteractions.length < 3) :
    (analisarPadroes mexp s agora).syncPattern.confidence =
      lerp s.syncPattern.confidence (confiancaCalculada (atrasosDe s.userInteractions))
        s.LEARNING_RATE := by
  rw [analisarPadroes.eq_def]
  simp only []
  rw [if_neg h3]
  rw [(ajustarLatenciaAdaptativa_frame _ agora).1]

theorem corridaConstante_inv (mexp : ℚ → ℚ) (c t : ℚ) (n : ℕ) :
    (corridaConstante mexp c t n).userInteractions =
      List.replicate (min n 50) (⟨0, c, t⟩ : Interaction) ∧
    (corridaConstante mexp c t n).LEARNING_RATE = 0.1 := by
  induction n with
  | zero => exact ⟨rfl, rfl⟩
  | succ m ih =>
    obtain ⟨hbuf, hlr⟩ := ih
    have hstep : corridaConstante mexp c t (m + 1) =
        registrarInteracaoUsuario mexp (corridaConstante mexp c t m) 0 c t := rfl
    rw [hstep, registrarInteracaoUsuario.eq_def]
    simp only []
    rw [hbuf, ← List.replicate_succ']
    simp only [List.length_replicate, MAX_SAMPLES]
    by_cases hm : m < 50
    · rw [if_neg (by omega)]
      constructor
      · rw [(analisarPadroes_frame mexp _ t).1,
          show min (m + 1) 50 = min m 50 + 1 from by omega]
      · rw [(analisarPadroes_frame mexp _ t).2]
        exact hlr
    · rw [if_pos (by omega), List.tail_replicate, Nat.add_sub_cancel]
      constructor
      · rw [(analisarPadroes_frame mexp _ t).1,
          show min (m + 1) 50 = min m 50 from by omega]
      · rw [(analisarPadroes_frame mexp _ t).2]
        exact hlr

theorem corridaConstante_conf (mexp : ℚ → ℚ) (c t : ℚ) (n : ℕ) :
    (corridaConstante mexp c t n).syncPattern.confidence =
      if n ≤ 2 then 0 else 1 - (9 / 10 : ℚ) ^ (n - 2) := by
  induction n with
  | zero => rfl
  | succ m ih =>
    obtain ⟨hbuf, hlr⟩ := corridaConstante_inv mexp c t m
    have hstep : corridaConstante mexp c t (m + 1) =
        registrarInteracaoUsuario mexp (corridaConstante mexp c t m) 0 c t := rfl
    rw [hstep, registrarInteracaoUsuario.eq_def]
    simp only []
    rw [hbuf, ← List.replicate_succ']
    simp only [List.length_replicate, MAX_SAMPLES]
    have hl2 : (if 50 < min m 50 + 1 then
        (List.replicate (min m 50 + 1) (⟨0, c, t⟩ : Interaction)).tail
        else List.replicate (min m 50 + 1) (⟨0, c, t⟩ : Interaction)) =
        List.replicate (min (m + 1) 50) (⟨0, c, t⟩ : Interaction) := by
      by_cases hm : m < 50
      · rw [if_neg (by omega), show min (m + 1) 50 = min m 50 + 1 from by omega]
      · rw [if_pos (by omega), List.tail_replicate, Nat.add_sub_cancel,
          show min (m + 1) 50 = min m 50 from by omega]
    rw [hl2]
    by_cases h3 : m + 1 < 3
    · rw [analisarPadroes_skip mexp _ t (by
        show (List.replicate (min (m + 1) 50) (⟨0, c, t⟩ : Interaction)).length < 3
        simpa using by omega)]
      have hconf : ({ corridaConstante mexp c t m with
          userInteractions := List.replicate (min (m + 1) 50) (⟨0, c, t⟩ : Interaction)
          } : SyncState).syncPattern.confidence =
          (corridaConstante mexp c t m).syncPattern.confidence := rfl
      rw [hconf, ih, if_pos (by omega), if_pos (by omega)]
    · rw [analisarPadroes_confidence mexp _ t (by
        show ¬ (List.replicate (min (m + 1) 50) (⟨0, c, t⟩ : Interaction)).length < 3
        simpa using by omega)]
      have hatr : atrasosDe (List.replicate (min (m + 1) 50) (⟨0, c, t⟩ : Interaction)) =
          List.replicate (min (m + 1) 50) c := by
        simp [atrasosDe, List.map_replicate]
      rw [show ({ corridaConstante mexp c t m with
          userInteractions := List.replicate (min (m + 1) 50) (⟨0, c, t⟩ : Interaction)
          } : SyncState).userInteractions =
          List.replicate (min (m + 1) 50) (⟨0, c, t⟩ : Interaction) from rfl]
      rw [hatr, confianca_replicate _ c (by omega)]
      have hsp : ({ corridaConstante mexp c t m with
          userInteractions := List.replicate (min (m + 1) 50) (⟨0, c, t⟩ : Interaction)
          } : SyncState).syncPattern.confidence =
          (corridaConstante mexp c t m).syncPattern.confidence := rfl
      have hsl : ({ corridaConstante mexp c t m with
          userInteractions := List.replicate (min (m + 1) 50) (⟨0, c, t⟩ : Interaction)
          } : SyncState).LEARNING_RATE = (corridaConstante mexp c t m).LEARNING_RATE := rfl
      rw [hsp, hsl, hlr, ih]
      by_cases hm2 : m ≤ 2
      · rw [if_pos hm2, if_neg (by omega), show m + 1 - 2 = 1 by omega]
        norm_num [lerp]
      · rw [if_neg hm2, if_neg (by omega), show m + 1 - 2 = (m - 2) + 1 by omega, pow_succ]
        rw [lerp.eq_def]
        ring

theorem analisarRegistro_precisao_zero {m : PadraoMap} {r : RegistroHistorico}
    (hm : ∀ p ∈ m, p.2.precisaoHistorica = 0) :
    ∀ p ∈ analisarRegistro m r, p.2.precisaoHistorica = 0 := by
  intro p hp
  simp only [analisarRegistro] at hp
  rcases hfind : (m.find? fun q => q.1 == r.word) with _ | par
  · rw [hfind] at hp
    simp only [List.mem_append, List.mem_singleton] at hp
    rcases hp with hp | rfl
    · exact hm p hp
    · rfl
  · rw [hfind] at hp
    simp only [List.mem_map] at hp
    obtain ⟨q, hq, rfl⟩ := hp
    by_cases hqw : q.1 == r.word
    · have hpar : par ∈ m := List.mem_of_find?_eq_some hfind
      simpa [hqw] using hm par hpar
    · simpa [hqw] using hm q hq

theorem foldl_analisar_precisao_zero (registros : List RegistroHistorico) :
    ∀ m, (∀ p ∈ m, p.2.precisaoHistorica = 0) →
      ∀ p ∈ registros.foldl analisarRegistro m, p.2.precisaoHistorica = 0 := by
  induction registros with
  | nil => intro m hm; simpa using hm
  | cons r rest ih =>
    intro m hm
    simpa using ih (analisarRegistro m r) (analisarRegistro_precisao_zero hm)

end Auxiliares

/-! ## Claim theorems -/

section Reivindicacoes

open SyncAi Learning Supabase

/-- C1 (amended).  The adaptive latency adjustment always lands in
`[-500, 1000]` and the emergency correction always lands in `[-300, 800]`,
for every state; the periodic self-calibration blend, in contrast, applies no
clamp and can leave `audioLatencyMs` outside `[-500, 1000]` (see the
counterexample). -/
theorem latencia_ajuste_e_emergencia_limitados :
    (∀ s : SyncState,
      -500 ≤ latenciaAjustadaLimitada s ∧ latenciaAjustadaLimitada s ≤ 1000) ∧
    (∀ (s : SyncState) (novoAtraso : ℚ),
      -300 ≤ (aplicarCorrecaoEmergencia s novoAtraso).audioLatency ∧
      (aplicarCorrecaoEmergencia s novoAtraso).audioLatency ≤ 800) := by
  constructor
  · intro s
    exact ⟨le_max_left _ _, max_le (by norm_num) (min_le_left _ _)⟩
  · intro s novoAtraso
    exact ⟨le_max_left _ _, max_le (by norm_num) (min_le_left _ _)⟩

set_option maxHeartbeats 2000000 in
/-- C1 (counterexample to the claim as stated).  After five
`registerInteraction` calls with offset 5000 ms at clock time 40000, the
self-calibration blend leaves `audioLatency` at 2084 ms, outside
`[-500, 1000]`: the claimed invariant fails after that update. -/
theorem calibracao_excede_limite_contraexemplo :
    corridaCalibracao.audioLatency = 2084 ∧
    ¬ (corridaCalibracao.audioLatency ≤ 1000) := by
  have h : corridaCalibracao.audioLatency = 2084 := by
    norm_num [corridaCalibracao, execRegistros, registrarInteracaoUsuario, analisarPadroes,
      ajustarLatenciaAdaptativa, executarAutoCalibracao, calibrarSistema, latenciaCalibrada,
      latenciaAjustadaLimitada, confiancaCalculada, initialSyncState, MAX_SAMPLES,
      atrasosDe, calcularPesosTemporais, detectarTendencia, analisarPeriodicidade,
      detectarOutliers, calcularEstabilidade, calcularConsistencia, calcularVariancia,
      filtrarPorOutliers, lerp, umExp, List.insertionSort, List.orderedInsert,
      max_def, min_def, abs,
      show List.range 3 = [0, 1, 2] from rfl,
      show List.range 4 = [0, 1, 2, 3] from rfl,
      show List.range 5 = [0, 1, 2, 3, 4] from rfl,
      show List.range 9 = [0, 1, 2, 3, 4, 5, 6, 7, 8] from rfl,
      show List.replicate 3 false = [false, false, false] from rfl]
  rw [h]
  norm_num

/-- C2 (evaluation at the failing input).  With the fresh estimator
(`audioLatency` 100 ms, confidence 0) the basic-correction path subtracts the
millisecond latency directly from the second-valued timestamps, so the
transcript collapses to `olá : [0, 0]` and `mundo. : [0, 0.5]` instead of the
0.1 s shift (giving `olá : [0, 0.4]`) that the specification describes. -/
theorem correcao_basica_subtrai_ms_de_segundos :
    corrigirTimestamps (initialSyncState 0)
        [⟨"olá", 0, 0.5⟩, ⟨"mundo.", 0.5, 1⟩] 0 =
      [⟨"olá", JsNum.fin 0, JsNum.fin 0⟩, ⟨"mundo.", JsNum.fin 0, JsNum.fin 0.5⟩] := by
  norm_num [corrigirTimestamps, aplicarCorrecaoBasica, initialSyncState, max_def]

set_option maxHeartbeats 2000000 in
/-- C3.  On a buffer of nine offset-50 samples and one offset-5000 sample the
IQR rule flags exactly the 5000 sample, and one analysis pass over that
buffer from a fresh pattern leaves `averageDelay` within 12 ms of 50 (it is
exactly 38.15 ms), far from 5000. -/
theorem outlier_iqr_e_atraso_medio_robusto :
    detectarOutliers (atrasosDe amostrasForaDaCurva) =
      [false, false, false, false, false, false, false, false, false, true] ∧
    38 ≤ (analisarPadroes umExp estadoForaDaCurva 0).syncPattern.averageDelay ∧
    (analisarPadroes umExp estadoForaDaCurva 0).syncPattern.averageDelay ≤ 62 := by
  have h : (analisarPadroes umExp estadoForaDaCurva 0).syncPattern.averageDelay =
      763 / 20 := by
    norm_num [estadoForaDaCurva, amostrasForaDaCurva, analisarPadroes,
      ajustarLatenciaAdaptativa, executarAutoCalibracao, calibrarSistema, latenciaCalibrada,
      latenciaAjustadaLimitada, confiancaCalculada, initialSyncState,
      atrasosDe, calcularPesosTemporais, detectarTendencia, analisarPeriodicidade,
      detectarOutliers, calcularEstabilidade, calcularConsistencia, calcularVariancia,
      filtrarPorOutliers, lerp, umExp, List.insertionSort, List.orderedInsert,
      max_def, min_def, abs,
      show List.range 10 = [0, 1, 2, 3, 4, 5, 6, 7, 8, 9] from rfl,
      show List.range 9 = [0, 1, 2, 3, 4, 5, 6, 7, 8] from rfl]
  refine ⟨?_, ?_, ?_⟩
  · norm_num [amostrasForaDaCurva, atrasosDe, detectarOutliers,
      List.insertionSort, List.orderedInsert, max_def, min_def]
  · rw [h]; norm_num
  · rw [h]; norm_num

/-- C4 (evaluation at the failing input).  Upserting compensations 100 ms and
then 200 ms for the word `teste` into an empty table leaves exactly one row,
but its `actual_time` is the latest value 200, not a weighted combination:
the `learning_data` schema has no `sample_count` column, so the running-mean
branch of the update never fires. -/
theorem upsert_duplo_guarda_ultimo_valor :
    dbAposDoisUpserts.length = 1 ∧
    dbAposDoisUpserts.map LearningRow.actual_time = [200] := by decide

/-- C5.  Feeding `n ≥ 3` interaction samples with a constant offset `c`
drives the confidence toward 1: it is non-negative, stays strictly below 1,
and strictly increases on every further analysis pass, for any `Math.exp`
model and any clock time. -/
theorem confianca_monotona_para_amostras_constantes (mexp : ℚ → ℚ) (c t : ℚ)
    (n : ℕ) (hn : 3 ≤ n) :
    0 ≤ (corridaConstante mexp c t n).syncPattern.confidence ∧
    (corridaConstante mexp c t n).syncPattern.confidence < 1 ∧
    (corridaConstante mexp c t n).syncPattern.confidence <
      (corridaConstante mexp c t (n + 1)).syncPattern.confidence := by
  rw [corridaConstante_conf, corridaConstante_conf, if_neg (by omega), if_neg (by omega)]
  have hq0 : (0 : ℚ) < (9 / 10 : ℚ) ^ (n - 2) := by positivity
  have hq1 : ((9 : ℚ) / 10) ^ (n - 2) ≤ 1 :=
    pow_le_one₀ (by norm_num) (by norm_num)
  refine ⟨by linarith, by linarith, ?_⟩
  rw [show n + 1 - 2 = (n - 2) + 1 by omega, pow_succ]
  nlinarith [hq0]

/-- C5 (witness): the monotonicity theorem applied at the concrete run of
three samples with offset 70. -/
theorem confianca_monotona_testemunha :
    0 ≤ (corridaConstante umExp 70 0 3).syncPattern.confidence ∧
    (corridaConstante umExp 70 0 3).syncPattern.confidence < 1 ∧
    (corridaConstante umExp 70 0 3).syncPattern.confidence <
      (corridaConstante umExp 70 0 (3 + 1)).syncPattern.confidence :=
  confianca_monotona_para_amostras_constantes umExp 70 0 3 (by decide)

/-- C7 (amended).  With the default offset table, the traditional
compensation adds `averageDelay` exactly when confidence exceeds 0.5, plus a
punctuation offset of 200 ms when the word ends in a period, exclamation or
question mark, 150 ms when it ends in a comma or semicolon, and 100 ms when
it contains a quote anywhere, else 100 ms when it contains a dash anywhere —
the quote and dash offsets are not restricted to word-final punctuation. -/
theorem compensacao_tradicional_caracterizada (s : SyncState) (tempoAtual : ℚ)
    (w : String) (hpo : s.punctuationOffsets = defaultPunctuationOffsets) :
    calcularCompensacaoTradicional s tempoAtual (some w) =
      (if 0.5 < s.syncPattern.confidence then s.syncPattern.averageDelay else 0) +
      (if isPunctuationWord w then
        (if Js.endsWith w '.' || Js.endsWith w '!' || Js.endsWith w '?' then 200
         else if Js.endsWith w ',' || Js.endsWith w ';' then 150
         else if Js.anyChar w (fun c => aspas.contains c) then 100
         else if Js.anyChar w (fun c => c == '-') then 100
         else 0)
       else 0) := by
  simp only [calcularCompensacaoTradicional, calcularCompensacaoPontuacao, hpo,
    defaultPunctuationOffsets]
  by_cases hp : isPunctuationWord w <;>
  by_cases h1 : Js.endsWith w '.' <;>
  by_cases h2 : Js.endsWith w '!' <;>
  by_cases h3 : Js.endsWith w '?' <;>
  by_cases h4 : Js.endsWith w ',' <;>
  by_cases h5 : Js.endsWith w ';' <;>
  simp [hp, h1, h2, h3, h4, h5]

/-- C7 (witness): the characterization applied to the fresh estimator and the
word `fim.`, which ends in a period and therefore gets the 200 ms offset. -/
theorem compensacao_tradicional_testemunha :
    calcularCompensacaoTradicional (initialSyncState 0) 0 (some "fim.") = 200 := by
  rw [compensacao_tradicional_caracterizada (initialSyncState 0) 0 "fim." rfl]
  norm_num [initialSyncState,
    show isPunctuationWord "fim." = true from rfl,
    show Js.endsWith "fim." '.' = true from rfl]

/-- C7 (counterexample to the claim as stated).  The word `bem-vindo` ends in
no punctuation character at all, yet the traditional compensation applies the
100 ms dash offset because the dash occurs in the middle of the word: the
offset is not applied "exactly when the word ends in the matching
punctuation". -/
theorem pontuacao_hifen_interno_contraexemplo :
    calcularCompensacaoTradicional (initialSyncState 0) 0 (some "bem-vindo") = 100 ∧
    (caracteresPontuacao.all fun c => !(Js.endsWith "bem-vindo" c)) = true := by
  constructor
  · norm_num [calcularCompensacaoTradicional, calcularCompensacaoPontuacao, initialSyncState,
      defaultPunctuationOffsets,
      show isPunctuationWord "bem-vindo" = true from rfl,
      show Js.endsWith "bem-vindo" '.' = false from rfl,
      show Js.endsWith "bem-vindo" '!' = false from rfl,
      show Js.endsWith "bem-vindo" '?' = false from rfl,
      show Js.endsWith "bem-vindo" ',' = false from rfl,
      show Js.endsWith "bem-vindo" ';' = false from rfl,
      show Js.anyChar "bem-vindo" (fun c => aspas.contains c) = false from rfl,
      show Js.anyChar "bem-vindo" (fun c => c == '-') = true from rfl]
  · rfl

/-- C8.  The upsert validates its inputs: a call whose word trims to the
empty string returns `false` and leaves the table untouched, while a call
with a `NaN`, `null` or `undefined` compensation behaves exactly like the
same call with the 100 ms default and still performs the write (returns
`true`). -/
theorem upsert_validacao_entradas :
    (∀ (db : List LearningRow) (palavra : String) (compensacao : JsNumber)
       (contexto : String) (precisao : Option ℚ),
       Js.trim palavra = "" →
       salvarDadosAprendizadoComEmbeddings db palavra compensacao contexto precisao =
         (false, db)) ∧
    (∀ (db : List LearningRow) (palavra : String) (compensacao : JsNumber)
       (contexto : String) (precisao : Option ℚ),
       Js.trim palavra ≠ "" →
       (compensacao = JsNumber.nan ∨ compensacao = JsNumber.jsNull ∨
        compensacao = JsNumber.undef) →
       salvarDadosAprendizadoComEmbeddings db palavra compensacao contexto precisao =
         salvarDadosAprendizadoComEmbeddings db palavra (JsNumber.num 100) contexto
           precisao ∧
       (salvarDadosAprendizadoComEmbeddings db palavra compensacao contexto precisao).1 =
         true) := by
  constructor
  · intro db palavra compensacao contexto precisao h
    simp [salvarDadosAprendizadoComEmbeddings, h, show ("" : String).length = 0 from rfl]
  · intro db palavra compensacao contexto precisao h1 h2
    have hlen : ¬ ((Js.trim palavra).length = 0) := fun hc =>
      h1 ((js_length_eq_zero_iff (Js.trim palavra)).mp hc)
    have hfst :
        (salvarDadosAprendizadoComEmbeddings db palavra compensacao contexto precisao).1 =
          true := by
      rw [salvarDadosAprendizadoComEmbeddings.eq_def, if_neg hlen]
      rcases hf : (db.find? fun r => r.word == Js.toLower palavra) with _ | row <;>
        simp [hf]
    refine ⟨?_, hfst⟩
    rcases h2 with rfl | rfl | rfl <;> rfl

/-- C8 (witness): the validation theorem applied to a whitespace-only word
and to a `NaN` compensation on the empty table. -/
theorem upsert_validacao_testemunha :
    salvarDadosAprendizadoComEmbeddings [] "  " (JsNumber.num 5) "c" none = (false, []) ∧
    salvarDadosAprendizadoComEmbeddings [] "abc" JsNumber.nan "c" none =
      salvarDadosAprendizadoComEmbeddings [] "abc" (JsNumber.num 100) "c" none :=
  ⟨upsert_validacao_entradas.1 [] "  " (JsNumber.num 5) "c" none (by decide),
   (upsert_validacao_entradas.2 [] "abc" JsNumber.nan "c" none (by decide) (Or.inl rfl)).1⟩

/-- C9.  Every pattern the aggregator ever stores has `precisaoHistorica = 0`
(the field is set to 0 at creation and never written afterwards), so the
eviction predicate holds for every stored pattern and a single optimization
pass empties the map, whatever records were analyzed. -/
theorem padroes_precisao_zero_e_otimizacao_esvazia
    (registros : List RegistroHistorico) :
    (∀ p ∈ registros.foldl analisarRegistro [], p.2.precisaoHistorica = 0) ∧
    otimizarPadroes (registros.foldl analisarRegistro []) = [] := by
  have hall := foldl_analisar_precisao_zero registros [] (by simp)
  refine ⟨hall, ?_⟩
  apply List.filter_eq_nil_iff.mpr
  intro p hp
  have h0 := hall p hp
  simp [h0]
  norm_num

/-- C9 (witness): a single analyzed record is evicted by one optimization
pass, leaving the map empty. -/
theorem padroes_otimizacao_testemunha :
    otimizarPadroes
      ([(⟨"ola", some 120, some "ctx", some 1⟩ : RegistroHistorico)].foldl
        analisarRegistro []) = [] :=
  (padroes_precisao_zero_e_otimizacao_esvazia
    [(⟨"ola", some 120, some "ctx", some 1⟩ : RegistroHistorico)]).2

/-- C10.  `resetarPadroes` resets the pattern to zeros, clears the buffer and
restores `audioLatency` to 100 ms, while `systemDelay` (50 ms at
construction), the punctuation offsets, the adaptively tuned `LEARNING_RATE`
and `CONFIDENCE_THRESHOLD`, and the calibration clock keep their current
values. -/
theorem resetar_padroes_frame (s : SyncState) (agora t : ℚ) :
    (resetarPadroes s agora).syncPattern =
      { averageDelay := 0, confidence := 0, sampleCount := 0, lastUpdated := agora } ∧
    (resetarPadroes s agora).userInteractions = [] ∧
    (resetarPadroes s agora).audioLatency = 100 ∧
    (resetarPadroes s agora).systemDelay = s.systemDelay ∧
    (resetarPadroes s agora).punctuationOffsets = s.punctuationOffsets ∧
    (resetarPadroes s agora).LEARNING_RATE = s.LEARNING_RATE ∧
    (resetarPadroes s agora).CONFIDENCE_THRESHOLD = s.CONFIDENCE_THRESHOLD ∧
    (resetarPadroes s agora).lastCalibration = s.lastCalibration ∧
    (initialSyncState t).systemDelay = 50 :=
  ⟨rfl, rfl, rfl, rfl, rfl, rfl, rfl, rfl, rfl⟩

end Reivindicacoes
